import Mathlib

/-!
Shallow embedding of the SPL-token instruction codec from
`src/spl-token-manual.ts` (with identical copies of the constructors in
`src/spl-mint-manual.ts` and the unnamed transfer script): the five
instruction constructors, the Node `Buffer` write primitives they use,
and the base58-decoded program-identity constants.  Batch composition
(the web3.js `Transaction` the scripts feed) is modelled from the spec.
-/

namespace SplToken

/-- A public key is its 32-byte identity (a byte list; the source's
`PublicKey.toBuffer()` yields exactly these bytes). -/
abbrev Pubkey := List Nat

/-- `{ pubkey, isSigner, isWritable }` entries of the `keys` arrays. -/
structure AccountMeta where
  pubkey : Pubkey
  isSigner : Bool
  isWritable : Bool
deriving DecidableEq, Repr

/-- `TransactionInstruction`: target program id, ordered account metas,
payload bytes. -/
structure TransactionInstruction where
  programId : Pubkey
  keys : List AccountMeta
  data : List Nat
deriving DecidableEq, Repr

/-! ### Base58 decoding (the `PublicKey` string constructor) -/

/-- The bitcoin base58 alphabet used by Solana public keys. -/
def b58Alphabet : List Char :=
  "123456789ABCDEFGHJKLMNPQRSTUVWXYZabcdefghijkmnopqrstuvwxyz".toList

/-- Digit value of one base58 character. -/
def b58Digit (c : Char) : Option Nat :=
  (b58Alphabet.findIdx? (fun d => d = c))

/-- Numeric value of a base58 string. -/
def b58Value (s : String) : Option Nat :=
  s.toList.foldl
    (fun acc c => acc.bind fun a => (b58Digit c).map fun i => a * 58 + i)
    (some 0)

/-- Minimal big-endian byte representation of a natural number, with
structural fuel so it reduces inside the kernel. -/
def natToBEbytesAux : Nat → Nat → List Nat
  | 0, _ => []
  | fuel + 1, n => if n = 0 then [] else natToBEbytesAux fuel (n / 256) ++ [n % 256]

/-- Minimal big-endian byte representation of a natural number. -/
def natToBEbytes (n : Nat) : List Nat := natToBEbytesAux n n

/-- Base58 decode: leading `'1'` characters are leading zero bytes. -/
def b58Decode (s : String) : Option (List Nat) :=
  (b58Value s).map fun n =>
    List.replicate (s.toList.takeWhile (fun c => c = '1')).length 0
      ++ natToBEbytes n

/-- `new PublicKey(string)` on a well-formed base58 string. -/
def pubkeyFromBase58 (s : String) : Pubkey :=
  (b58Decode s).getD []

/-! ### Program-identity constants (from the source) -/

/-- `TOKEN_PROGRAM_ID = new PublicKey('TokenkegQfeZyiNwAJbNbGKPFXCWuBvf9Ss623VQ5DA')` -/
def TOKEN_PROGRAM_ID : Pubkey :=
  pubkeyFromBase58 "TokenkegQfeZyiNwAJbNbGKPFXCWuBvf9Ss623VQ5DA"

/-- `SystemProgram.programId` (the all-ones base58 string, i.e. 32 zero bytes). -/
def SYSTEM_PROGRAM_ID : Pubkey :=
  pubkeyFromBase58 "11111111111111111111111111111111"

/-- `SYSVAR_RENT_PUBKEY = new PublicKey('SysvarRent111111111111111111111111111111111')` -/
def SYSVAR_RENT_PUBKEY : Pubkey :=
  pubkeyFromBase58 "SysvarRent111111111111111111111111111111111"

/-- `const TOKEN_INSTRUCTION_INITIALIZE_MINT = 0` -/
def TOKEN_INSTRUCTION_INITIALIZE_MINT : Nat := 0
/-- `const TOKEN_INSTRUCTION_INITIALIZE_ACCOUNT = 1` -/
def TOKEN_INSTRUCTION_INITIALIZE_ACCOUNT : Nat := 1
/-- `const TOKEN_INSTRUCTION_TRANSFER = 3` -/
def TOKEN_INSTRUCTION_TRANSFER : Nat := 3
/-- `const TOKEN_INSTRUCTION_MINT_TO = 7` -/
def TOKEN_INSTRUCTION_MINT_TO : Nat := 7

/-! ### Node Buffer primitives, as the source uses them -/

/-- `Buffer.alloc(n)`: `n` zero bytes. -/
def bufferAlloc (n : Nat) : List Nat := List.replicate n 0

/-- Overwrite `buf` at `off` with `bytes` (in-bounds case). -/
def writeBytesAt (buf : List Nat) (off : Nat) (bytes : List Nat) : List Nat :=
  buf.take off ++ bytes ++ buf.drop (off + bytes.length)

/-- Little-endian bytes of `n`, `width` bytes wide. -/
def natToLE (width : Nat) (n : Nat) : List Nat :=
  match width with
  | 0 => []
  | w + 1 => n % 256 :: natToLE w (n / 256)

/-- Little-endian decoder (inverse of `natToLE` on in-range values). -/
def leToNat (bytes : List Nat) : Nat :=
  bytes.foldr (fun b acc => b + 256 * acc) 0

/-- `buf.writeUInt8(v, off)`: Node validates `0 ≤ v ≤ 255` and the
offset and throws `ERR_OUT_OF_RANGE` otherwise. -/
def writeUInt8 (buf : List Nat) (v : Nat) (off : Nat) : Option (List Nat) :=
  if v ≤ 255 ∧ off + 1 ≤ buf.length then some (writeBytesAt buf off [v]) else none

/-- `buf.writeUInt32LE(v, off)` with Node's range/offset validation. -/
def writeUInt32LE (buf : List Nat) (v : Nat) (off : Nat) : Option (List Nat) :=
  if v < 2 ^ 32 ∧ off + 4 ≤ buf.length then some (writeBytesAt buf off (natToLE 4 v)) else none

/-- `buf.writeBigUInt64LE(v, off)`: the value is a (possibly negative)
`BigInt`; Node throws `ERR_OUT_OF_RANGE` unless `0 ≤ v < 2^64`. -/
def writeBigUInt64LE (buf : List Nat) (v : Int) (off : Nat) : Option (List Nat) :=
  if 0 ≤ v ∧ v < 2 ^ 64 ∧ off + 8 ≤ buf.length then
    some (writeBytesAt buf off (natToLE 8 v.toNat))
  else none

/-- `src.copy(target, targetStart)`: copies at most the room left in the
target, never throws, never grows the target. -/
def bufferCopy (src : Pubkey) (target : List Nat) (targetStart : Nat) : List Nat :=
  writeBytesAt target targetStart (src.take (target.length - targetStart))

/-! ### The five instruction constructors (from `spl-token-manual.ts`) -/

/-- `createAccountInstruction(fromPubkey, newAccountPubkey, lamports, space, owner)`:
52-byte payload `tag(4) · lamports(8) · space(8) · owner(32)`, System
program target, payer and new account both signer+writable. -/
def createAccountInstruction (fromPubkey newAccountPubkey : Pubkey)
    (lamports space : Int) (owner : Pubkey) : Option TransactionInstruction :=
  let CREATE_ACCOUNT_INDEX := 0
  let data0 := bufferAlloc (4 + 8 + 8 + 32)
  (writeUInt32LE data0 CREATE_ACCOUNT_INDEX 0).bind fun data1 =>
  (writeBigUInt64LE data1 lamports 4).bind fun data2 =>
  (writeBigUInt64LE data2 space 12).map fun data3 =>
  let data := bufferCopy owner data3 20
  { programId := SYSTEM_PROGRAM_ID
    keys := [⟨fromPubkey, true, true⟩, ⟨newAccountPubkey, true, true⟩]
    data := data }

/-- `createInitializeMintInstruction(mintPubkey, decimals, mintAuthority, freezeAuthority)`:
payload `tag(1) · decimals(1) · mintAuthority(32) · option(1) · [freezeAuthority(32)]`
allocated at its final length (35 or 67), token-program target. -/
def createInitializeMintInstruction (mintPubkey : Pubkey) (decimals : Nat)
    (mintAuthority : Pubkey) (freezeAuthority : Option Pubkey) :
    Option TransactionInstruction :=
  let freezeAuthOption := if freezeAuthority.isSome then 1 else 0
  let dataLength := if freezeAuthority.isSome then 1 + 1 + 32 + 1 + 32 else 1 + 1 + 32 + 1
  let data0 := bufferAlloc dataLength
  (writeUInt8 data0 TOKEN_INSTRUCTION_INITIALIZE_MINT 0).bind fun data1 =>
  (writeUInt8 data1 decimals 1).bind fun data2 =>
  let data3 := bufferCopy mintAuthority data2 2
  (writeUInt8 data3 freezeAuthOption 34).map fun data4 =>
  let data := match freezeAuthority with
    | some fa => bufferCopy fa data4 35
    | none => data4
  { programId := TOKEN_PROGRAM_ID
    keys := [⟨mintPubkey, false, true⟩, ⟨SYSVAR_RENT_PUBKEY, false, false⟩]
    data := data }

/-- `createInitializeAccountInstruction(tokenAccountPubkey, mintPubkey, ownerPubkey)`:
one-byte payload, token-program target, four fixed account roles. -/
def createInitializeAccountInstruction
    (tokenAccountPubkey mintPubkey ownerPubkey : Pubkey) :
    Option TransactionInstruction :=
  let data0 := bufferAlloc 1
  (writeUInt8 data0 TOKEN_INSTRUCTION_INITIALIZE_ACCOUNT 0).map fun data =>
  { programId := TOKEN_PROGRAM_ID
    keys := [⟨tokenAccountPubkey, false, true⟩, ⟨mintPubkey, false, false⟩,
             ⟨ownerPubkey, false, false⟩, ⟨SYSVAR_RENT_PUBKEY, false, false⟩]
    data := data }

/-- `createMintToInstruction(mintPubkey, destTokenAccountPubkey, mintAuthorityPubkey, amount)`:
payload `tag(1) · amount(8 LE)`, token-program target. -/
def createMintToInstruction (mintPubkey destTokenAccountPubkey
    mintAuthorityPubkey : Pubkey) (amount : Int) : Option TransactionInstruction :=
  let data0 := bufferAlloc (1 + 8)
  (writeUInt8 data0 TOKEN_INSTRUCTION_MINT_TO 0).bind fun data1 =>
  (writeBigUInt64LE data1 amount 1).map fun data =>
  { programId := TOKEN_PROGRAM_ID
    keys := [⟨mintPubkey, false, true⟩, ⟨destTokenAccountPubkey, false, true⟩,
             ⟨mintAuthorityPubkey, true, false⟩]
    data := data }

/-- `createTransferInstruction(sourceTokenAccountPubkey, destTokenAccountPubkey, ownerPubkey, amount)`:
payload `tag(1) · amount(8 LE)`, token-program target. -/
def createTransferInstruction (sourceTokenAccountPubkey destTokenAccountPubkey
    ownerPubkey : Pubkey) (amount : Int) : Option TransactionInstruction :=
  let data0 := bufferAlloc (1 + 8)
  (writeUInt8 data0 TOKEN_INSTRUCTION_TRANSFER 0).bind fun data1 =>
  (writeBigUInt64LE data1 amount 1).map fun data =>
  { programId := TOKEN_PROGRAM_ID
    keys := [⟨sourceTokenAccountPubkey, false, true⟩, ⟨destTokenAccountPubkey, false, true⟩,
             ⟨ownerPubkey, true, false⟩]
    data := data }

end SplToken
namespace SplToken

/-- Modelled from the spec: the Batch required-signer set (the source
delegates this to the external web3.js `Transaction`): the deduplicated
union of the identities of `isSigner = true` account references across
all the batch's instructions. -/
def requiredSigners (instrs : List TransactionInstruction) : List Pubkey :=
  ((instrs.flatMap fun i => i.keys).filter (fun k => k.isSigner)).map (fun k => k.pubkey)
    |>.dedup

/-- Batch-state-violation errors from the spec's error taxonomy. -/
inductive BatchError where
  | invalidState
  | emptyInstructions
  | missingFeePayer
  | missingFreshnessToken
deriving DecidableEq, Repr

/-- Modelled from the spec: a Batch (the web3.js `Transaction` the source
feeds via `add` / `recentBlockhash` / `feePayer` / `sign`): ordered
instructions, optional fee payer and freshness token, finalized flag. -/
structure Batch where
  instructions : List TransactionInstruction
  feePayer : Option Pubkey
  freshnessToken : Option Nat
  finalized : Bool
deriving DecidableEq, Repr

/-- Modelled from the spec: append is the only mutation before finalize;
appending to a finalized batch fails with an invalid-state error. -/
def Batch.append (b : Batch) (i : TransactionInstruction) : Except BatchError Batch :=
  if b.finalized then .error .invalidState
  else .ok { b with instructions := b.instructions ++ [i] }

/-- Modelled from the spec: finalize requires a non-empty instruction
list, a fee-payer identity and a freshness token; failures are reported
immediately and produce no batch. -/
def Batch.finalize (b : Batch) : Except BatchError Batch :=
  if b.finalized then .error .invalidState
  else if b.instructions.isEmpty then .error .emptyInstructions
  else
    match b.feePayer with
    | none => .error .missingFeePayer
    | some _ =>
      match b.freshnessToken with
      | none => .error .missingFreshnessToken
      | some _ => .ok { b with finalized := true }

end SplToken
namespace SplToken

/-! ### Concrete values used by the witness theorems -/

/-- A concrete 32-byte identity. -/
def pkOnes : Pubkey := List.replicate 32 1
/-- A concrete 32-byte identity. -/
def pkTwos : Pubkey := List.replicate 32 2
/-- A concrete 32-byte identity. -/
def pkThrees : Pubkey := List.replicate 32 3
/-- A concrete 32-byte identity. -/
def pkFours : Pubkey := List.replicate 32 4
/-- A concrete 32-byte identity. -/
def pkFives : Pubkey := List.replicate 32 5

/-- The AccountAllocation descriptor for payer `pkOnes`, new account
`pkTwos`, 5 lamports, 82 bytes of space, owner `pkThrees`. -/
def wAcctIx : TransactionInstruction :=
  ⟨SYSTEM_PROGRAM_ID, [⟨pkOnes, true, true⟩, ⟨pkTwos, true, true⟩],
   natToLE 4 0 ++ natToLE 8 5 ++ natToLE 8 82 ++ pkThrees⟩

/-- The InitializeMint descriptor for mint `pkTwos`, 9 decimals, mint
authority `pkFours`, no freeze authority. -/
def wInitMintIx : TransactionInstruction :=
  ⟨TOKEN_PROGRAM_ID, [⟨pkTwos, false, true⟩, ⟨SYSVAR_RENT_PUBKEY, false, false⟩],
   (0 :: 9 :: pkFours) ++ [0]⟩

/-- The InitializeMint descriptor for mint `pkOnes`, 9 decimals, mint
authority `pkTwos`, no freeze authority. -/
def wInitMint2Ix : TransactionInstruction :=
  ⟨TOKEN_PROGRAM_ID, [⟨pkOnes, false, true⟩, ⟨SYSVAR_RENT_PUBKEY, false, false⟩],
   (0 :: 9 :: pkTwos) ++ [0]⟩

/-- The InitializeAccount descriptor for token account `pkOnes`, mint
`pkTwos`, owner `pkThrees`. -/
def wInitAcctIx : TransactionInstruction :=
  ⟨TOKEN_PROGRAM_ID, [⟨pkOnes, false, true⟩, ⟨pkTwos, false, false⟩,
    ⟨pkThrees, false, false⟩, ⟨SYSVAR_RENT_PUBKEY, false, false⟩], [1]⟩

/-- The MintTo descriptor for mint `pkOnes`, destination `pkTwos`,
authority `pkThrees`, amount 5. -/
def wMintToIx : TransactionInstruction :=
  ⟨TOKEN_PROGRAM_ID, [⟨pkOnes, false, true⟩, ⟨pkTwos, false, true⟩,
    ⟨pkThrees, true, false⟩], [7, 5, 0, 0, 0, 0, 0, 0, 0]⟩

/-- The Transfer descriptor for source `pkFours`, destination `pkTwos`,
owner `pkThrees`, amount 5. -/
def wTransferIx : TransactionInstruction :=
  ⟨TOKEN_PROGRAM_ID, [⟨pkFours, false, true⟩, ⟨pkTwos, false, true⟩,
    ⟨pkThrees, true, false⟩], [3, 5, 0, 0, 0, 0, 0, 0, 0]⟩

/-- A batch with no instructions, not yet finalized. -/
def wBatchEmpty : Batch := ⟨[], some pkOnes, some 1, false⟩
/-- A non-empty batch missing its fee payer. -/
def wBatchNoPayer : Batch := ⟨[wMintToIx], none, some 1, false⟩
/-- A non-empty batch missing its freshness token. -/
def wBatchNoToken : Batch := ⟨[wMintToIx], some pkOnes, none, false⟩
/-- A finalized batch. -/
def wBatchFinal : Batch := ⟨[wMintToIx], some pkOnes, some 1, true⟩

end SplToken
namespace SplToken

theorem natToLE_length (w n : Nat) : (natToLE w n).length = w := by
  induction w generalizing n with
  | zero => rfl
  | succ w ih => simp [natToLE, ih]

theorem writeBytesAt_zero (buf bytes : List Nat) :
    writeBytesAt buf 0 bytes = bytes ++ buf.drop bytes.length := by
  simp [writeBytesAt]

theorem writeBytesAt_append (a b c : List Nat) (off : Nat)
    (ha : a.length = off) :
    writeBytesAt (a ++ b) off c = a ++ writeBytesAt b 0 c := by
  subst ha
  unfold writeBytesAt
  rw [List.take_left, List.drop_append]
  simp [List.append_assoc]

theorem drop_replicate' (n m : Nat) (x : Nat) :
    (List.replicate m x).drop n = List.replicate (m - n) x := by
  simp [List.drop_replicate]

end SplToken
namespace SplToken

theorem leToNat_natToLE (w n : Nat) : leToNat (natToLE w n) = n % 256 ^ w := by
  induction w generalizing n with
  | zero => simp [natToLE, leToNat, Nat.mod_one]
  | succ w ih =>
    have h1 : n % (256 * 256 ^ w) / 256 = n / 256 % 256 ^ w :=
      Nat.mod_mul_right_div_self n 256 (256 ^ w)
    have h2 : n % (256 * 256 ^ w) % 256 = n % 256 :=
      Nat.mod_mod_of_dvd n ⟨256 ^ w, rfl⟩
    have hle : leToNat (natToLE (w + 1) n) =
        n % 256 + 256 * leToNat (natToLE w (n / 256)) := by
      simp [natToLE, leToNat]
    rw [hle, ih]
    rw [show (256 : Nat) ^ (w + 1) = 256 * 256 ^ w from by ring]
    rw [← h1, ← h2]
    exact Nat.mod_add_div _ 256

theorem writeBytesAt_length (buf bytes : List Nat) (off : Nat)
    (h : off + bytes.length ≤ buf.length) :
    (writeBytesAt buf off bytes).length = buf.length := by
  simp [writeBytesAt]
  omega

theorem writeBytesAt_nil (buf : List Nat) (off : Nat) :
    writeBytesAt buf off [] = buf := by
  simp [writeBytesAt]

theorem writeUInt8_length (buf : List Nat) (v off : Nat) (buf' : List Nat)
    (h : writeUInt8 buf v off = some buf') : buf'.length = buf.length := by
  rw [writeUInt8] at h
  split at h
  · cases h
    exact writeBytesAt_length _ _ _ (by simp; omega)
  · cases h

theorem writeBigUInt64LE_length (buf : List Nat) (v : Int) (off : Nat) (buf' : List Nat)
    (h : writeBigUInt64LE buf v off = some buf') : buf'.length = buf.length := by
  rw [writeBigUInt64LE] at h
  split at h
  · cases h
    exact writeBytesAt_length _ _ _ (by simp [natToLE_length]; omega)
  · cases h

theorem bufferCopy_length (src target : List Nat) (targetStart : Nat) :
    (bufferCopy src target targetStart).length = target.length := by
  rw [bufferCopy]
  by_cases h : targetStart ≤ target.length
  · exact writeBytesAt_length _ _ _ (by simp; omega)
  · rw [show target.length - targetStart = 0 from by omega]
    rw [List.take_zero, writeBytesAt_nil]

end SplToken
namespace SplToken

theorem createMintToInstruction_eq (m d a : Pubkey) (amount : Int)
    (h0 : 0 ≤ amount) (h1 : amount < 2 ^ 64) :
    createMintToInstruction m d a amount = some
      { programId := TOKEN_PROGRAM_ID
        keys := [⟨m, false, true⟩, ⟨d, false, true⟩, ⟨a, true, false⟩]
        data := TOKEN_INSTRUCTION_MINT_TO :: natToLE 8 amount.toNat } := by
  have e1 : writeUInt8 (bufferAlloc (1 + 8)) TOKEN_INSTRUCTION_MINT_TO 0 =
      some [TOKEN_INSTRUCTION_MINT_TO, 0, 0, 0, 0, 0, 0, 0, 0] := by
    rw [writeUInt8, if_pos (by simp [bufferAlloc, TOKEN_INSTRUCTION_MINT_TO])]
    rw [writeBytesAt_zero]
    simp [bufferAlloc]
  have e2 : writeBigUInt64LE [TOKEN_INSTRUCTION_MINT_TO, 0, 0, 0, 0, 0, 0, 0, 0] amount 1 =
      some (TOKEN_INSTRUCTION_MINT_TO :: natToLE 8 amount.toNat) := by
    rw [writeBigUInt64LE, if_pos ⟨h0, h1, by simp⟩]
    rw [show ([TOKEN_INSTRUCTION_MINT_TO, 0, 0, 0, 0, 0, 0, 0, 0] : List Nat) =
      [TOKEN_INSTRUCTION_MINT_TO] ++ List.replicate 8 0 from rfl]
    rw [writeBytesAt_append [TOKEN_INSTRUCTION_MINT_TO] _ _ 1 (by simp)]
    rw [writeBytesAt_zero]
    simp [natToLE_length]
  simp [createMintToInstruction, e1, e2]

end SplToken
namespace SplToken

theorem createTransferInstruction_eq (s d o : Pubkey) (amount : Int)
    (h0 : 0 ≤ amount) (h1 : amount < 2 ^ 64) :
    createTransferInstruction s d o amount = some
      { programId := TOKEN_PROGRAM_ID
        keys := [⟨s, false, true⟩, ⟨d, false, true⟩, ⟨o, true, false⟩]
        data := TOKEN_INSTRUCTION_TRANSFER :: natToLE 8 amount.toNat } := by
  have e1 : writeUInt8 (bufferAlloc (1 + 8)) TOKEN_INSTRUCTION_TRANSFER 0 =
      some [TOKEN_INSTRUCTION_TRANSFER, 0, 0, 0, 0, 0, 0, 0, 0] := by
    rw [writeUInt8, if_pos (by simp [bufferAlloc, TOKEN_INSTRUCTION_TRANSFER])]
    rw [writeBytesAt_zero]
    simp [bufferAlloc]
  have e2 : writeBigUInt64LE [TOKEN_INSTRUCTION_TRANSFER, 0, 0, 0, 0, 0, 0, 0, 0] amount 1 =
      some (TOKEN_INSTRUCTION_TRANSFER :: natToLE 8 amount.toNat) := by
    rw [writeBigUInt64LE, if_pos ⟨h0, h1, by simp⟩]
    rw [show ([TOKEN_INSTRUCTION_TRANSFER, 0, 0, 0, 0, 0, 0, 0, 0] : List Nat) =
      [TOKEN_INSTRUCTION_TRANSFER] ++ List.replicate 8 0 from rfl]
    rw [writeBytesAt_append [TOKEN_INSTRUCTION_TRANSFER] _ _ 1 (by simp)]
    rw [writeBytesAt_zero]
    simp [natToLE_length]
  simp [createTransferInstruction, e1, e2]

theorem createInitializeAccountInstruction_eq (t m o : Pubkey) :
    createInitializeAccountInstruction t m o = some
      { programId := TOKEN_PROGRAM_ID
        keys := [⟨t, false, true⟩, ⟨m, false, false⟩,
                 ⟨o, false, false⟩, ⟨SYSVAR_RENT_PUBKEY, false, false⟩]
        data := [TOKEN_INSTRUCTION_INITIALIZE_ACCOUNT] } := by
  simp [createInitializeAccountInstruction, writeUInt8, bufferAlloc, writeBytesAt,
    TOKEN_INSTRUCTION_INITIALIZE_ACCOUNT]

theorem createAccountInstruction_eq (f n : Pubkey) (lamports space : Int) (o : Pubkey)
    (hl0 : 0 ≤ lamports) (hl1 : lamports < 2 ^ 64)
    (hs0 : 0 ≤ space) (hs1 : space < 2 ^ 64) (ho : o.length = 32) :
    createAccountInstruction f n lamports space o = some
      { programId := SYSTEM_PROGRAM_ID
        keys := [⟨f, true, true⟩, ⟨n, true, true⟩]
        data := natToLE 4 0 ++ natToLE 8 lamports.toNat ++ natToLE 8 space.toNat ++ o } := by
  have e1 : writeUInt32LE (bufferAlloc (4 + 8 + 8 + 32)) 0 0 =
      some (List.replicate 52 0) := by decide
  have e2 : writeBigUInt64LE (List.replicate 52 0) lamports 4 =
      some (List.replicate 4 0 ++ (natToLE 8 lamports.toNat ++ List.replicate 40 0)) := by
    rw [writeBigUInt64LE, if_pos ⟨hl0, hl1, by simp⟩]
    rw [show (List.replicate 52 0 : List Nat) =
      List.replicate 4 0 ++ List.replicate 48 0 from rfl]
    rw [writeBytesAt_append (List.replicate 4 0) _ _ 4 (by simp)]
    rw [writeBytesAt_zero]
    simp [natToLE_length]
  have e3 : writeBigUInt64LE
      (List.replicate 4 0 ++ (natToLE 8 lamports.toNat ++ List.replicate 40 0)) space 12 =
      some ((List.replicate 4 0 ++ natToLE 8 lamports.toNat) ++
        (natToLE 8 space.toNat ++ List.replicate 32 0)) := by
    rw [writeBigUInt64LE, if_pos ⟨hs0, hs1, by simp [natToLE_length]⟩]
    rw [← List.append_assoc]
    rw [writeBytesAt_append (List.replicate 4 0 ++ natToLE 8 lamports.toNat) _ _ 12
      (by simp [natToLE_length])]
    rw [writeBytesAt_zero]
    simp [natToLE_length]
  have e4 : bufferCopy o ((List.replicate 4 0 ++ natToLE 8 lamports.toNat) ++
      (natToLE 8 space.toNat ++ List.replicate 32 0)) 20 =
      ((List.replicate 4 0 ++ natToLE 8 lamports.toNat) ++ natToLE 8 space.toNat) ++ o := by
    rw [bufferCopy]
    have hlen : ((List.replicate 4 0 ++ natToLE 8 lamports.toNat) ++
        (natToLE 8 space.toNat ++ List.replicate 32 0)).length = 52 := by
      simp [natToLE_length]
    rw [hlen]
    rw [show (52 - 20 : Nat) = 32 from rfl]
    rw [show (o.take 32) = o from by rw [← ho]; exact List.take_length o]
    rw [show (List.replicate 4 0 ++ natToLE 8 lamports.toNat) ++
        (natToLE 8 space.toNat ++ List.replicate 32 0) =
      ((List.replicate 4 0 ++ natToLE 8 lamports.toNat) ++ natToLE 8 space.toNat) ++
        List.replicate 32 0 from by simp [List.append_assoc]]
    rw [writeBytesAt_append _ _ _ 20 (by simp [natToLE_length])]
    rw [writeBytesAt_zero]
    simp [ho]
  have hnat : natToLE 4 0 = List.replicate 4 0 := by decide
  rw [createAccountInstruction.eq_def]
  simp only [e1, Option.some_bind, e2, e3, Option.map_some, Option.map_some', e4, hnat]

end SplToken
namespace SplToken

theorem createInitializeMintInstruction_none_eq (m : Pubkey) (decimals : Nat)
    (ma : Pubkey) (hd : decimals ≤ 255) (hma : ma.length = 32) :
    createInitializeMintInstruction m decimals ma none = some
      { programId := TOKEN_PROGRAM_ID
        keys := [⟨m, false, true⟩, ⟨SYSVAR_RENT_PUBKEY, false, false⟩]
        data := (TOKEN_INSTRUCTION_INITIALIZE_MINT :: decimals :: ma) ++ [0] } := by
  have e1 : writeUInt8 (bufferAlloc (1 + 1 + 32 + 1)) TOKEN_INSTRUCTION_INITIALIZE_MINT 0 =
      some (List.replicate 35 0) := by decide
  have e2 : writeUInt8 (List.replicate 35 0) decimals 1 =
      some (0 :: decimals :: List.replicate 33 0) := by
    rw [writeUInt8, if_pos ⟨hd, by simp⟩]
    rw [show (List.replicate 35 0 : List Nat) = [0] ++ List.replicate 34 0 from rfl]
    rw [writeBytesAt_append [0] _ _ 1 (by simp)]
    rw [writeBytesAt_zero]
    simp
  have e3 : bufferCopy ma (0 :: decimals :: List.replicate 33 0) 2 =
      0 :: decimals :: (ma ++ [0]) := by
    rw [bufferCopy]
    have hlen : (0 :: decimals :: List.replicate 33 0).length = 35 := by simp
    rw [hlen, show (35 - 2 : Nat) = 33 from rfl]
    rw [List.take_of_length_le (by omega)]
    rw [show (0 :: decimals :: List.replicate 33 0 : List Nat) =
      [0, decimals] ++ List.replicate 33 0 from rfl]
    rw [writeBytesAt_append [0, decimals] _ _ 2 (by simp)]
    rw [writeBytesAt_zero]
    simp [hma]
  have e4 : writeUInt8 (0 :: decimals :: (ma ++ [0])) 0 34 =
      some ((0 :: decimals :: ma) ++ [0]) := by
    rw [writeUInt8, if_pos ⟨by omega, by simp [hma]⟩]
    rw [show (0 :: decimals :: (ma ++ [0]) : List Nat) =
      (0 :: decimals :: ma) ++ [0] from by simp]
    rw [writeBytesAt_append (0 :: decimals :: ma) _ _ 34 (by simp [hma])]
    rw [writeBytesAt_zero]
    simp
  rw [createInitializeMintInstruction.eq_def]
  simp only [Option.isSome_none, Bool.false_eq_true, if_false, if_neg]
  simp only [e1, Option.some_bind, e2, e3, e4, Option.map_some, Option.map_some']
  simp [TOKEN_INSTRUCTION_INITIALIZE_MINT]

theorem createInitializeMintInstruction_some_eq (m : Pubkey) (decimals : Nat)
    (ma fa : Pubkey) (hd : decimals ≤ 255) (hma : ma.length = 32) (hfa : fa.length = 32) :
    createInitializeMintInstruction m decimals ma (some fa) = some
      { programId := TOKEN_PROGRAM_ID
        keys := [⟨m, false, true⟩, ⟨SYSVAR_RENT_PUBKEY, false, false⟩]
        data := ((TOKEN_INSTRUCTION_INITIALIZE_MINT :: decimals :: ma) ++ [1]) ++ fa } := by
  have e1 : writeUInt8 (bufferAlloc (1 + 1 + 32 + 1 + 32)) TOKEN_INSTRUCTION_INITIALIZE_MINT 0 =
      some (List.replicate 67 0) := by decide
  have e2 : writeUInt8 (List.replicate 67 0) decimals 1 =
      some (0 :: decimals :: List.replicate 65 0) := by
    rw [writeUInt8, if_pos ⟨hd, by simp⟩]
    rw [show (List.replicate 67 0 : List Nat) = [0] ++ List.replicate 66 0 from rfl]
    rw [writeBytesAt_append [0] _ _ 1 (by simp)]
    rw [writeBytesAt_zero]
    simp
  have e3 : bufferCopy ma (0 :: decimals :: List.replicate 65 0) 2 =
      0 :: decimals :: (ma ++ List.replicate 33 0) := by
    rw [bufferCopy]
    have hlen : (0 :: decimals :: List.replicate 65 0).length = 67 := by simp
    rw [hlen, show (67 - 2 : Nat) = 65 from rfl]
    rw [List.take_of_length_le (by omega)]
    rw [show (0 :: decimals :: List.replicate 65 0 : List Nat) =
      [0, decimals] ++ List.replicate 65 0 from rfl]
    rw [writeBytesAt_append [0, decimals] _ _ 2 (by simp)]
    rw [writeBytesAt_zero]
    simp [hma]
  have e4 : writeUInt8 (0 :: decimals :: (ma ++ List.replicate 33 0)) 1 34 =
      some (0 :: decimals :: (ma ++ (1 :: List.replicate 32 0))) := by
    rw [writeUInt8, if_pos ⟨by omega, by simp [hma]⟩]
    rw [show (0 :: decimals :: (ma ++ List.replicate 33 0) : List Nat) =
      (0 :: decimals :: ma) ++ List.replicate 33 0 from by simp]
    rw [writeBytesAt_append (0 :: decimals :: ma) _ _ 34 (by simp [hma])]
    rw [writeBytesAt_zero]
    simp
  have e5 : bufferCopy fa (0 :: decimals :: (ma ++ (1 :: List.replicate 32 0))) 35 =
      ((0 :: decimals :: ma) ++ [1]) ++ fa := by
    rw [bufferCopy]
    have hlen : (0 :: decimals :: (ma ++ (1 :: List.replicate 32 0))).length = 67 := by
      simp [hma]
    rw [hlen, show (67 - 35 : Nat) = 32 from rfl]
    rw [List.take_of_length_le (by omega)]
    rw [show (0 :: decimals :: (ma ++ (1 :: List.replicate 32 0)) : List Nat) =
      ((0 :: decimals :: ma) ++ [1]) ++ List.replicate 32 0 from by simp]
    rw [writeBytesAt_append ((0 :: decimals :: ma) ++ [1]) _ _ 35 (by simp [hma])]
    rw [writeBytesAt_zero]
    simp [hfa]
  rw [createInitializeMintInstruction.eq_def]
  simp only [Option.isSome_some, if_pos]
  simp only [e1, Option.some_bind, e2, e3, e4, e5, Option.map_some, Option.map_some']
  simp [TOKEN_INSTRUCTION_INITIALIZE_MINT]

end SplToken
namespace SplToken

/-- C1: every constructor allocates and returns a payload of exactly the
schema-computed length — AccountAllocation 52 bytes (tag at 0, lamports at 4,
space at 12, owner identity at 20), InitializeAccount 1 byte, MintTo and
Transfer 9 bytes (tag then 8-byte amount), InitializeMint 35 bytes without a
freeze authority and 67 with one — for every valid input. -/
theorem payload_lengths_match_schema
    (f n o t m ow mint dest auth srcAcct mm ma fa : Pubkey)
    (lamports space amount : Int) (decimals : Nat)
    (hl0 : 0 ≤ lamports) (hl1 : lamports < 2 ^ 64)
    (hs0 : 0 ≤ space) (hs1 : space < 2 ^ 64) (ho : o.length = 32)
    (ha0 : 0 ≤ amount) (ha1 : amount < 2 ^ 64)
    (hd : decimals ≤ 255) (hma : ma.length = 32) (hfa : fa.length = 32) :
    (∃ i, createAccountInstruction f n lamports space o = some i ∧
       i.data.length = 52 ∧ i.data.take 4 = natToLE 4 0 ∧
       (i.data.drop 4).take 8 = natToLE 8 lamports.toNat ∧
       (i.data.drop 12).take 8 = natToLE 8 space.toNat ∧ i.data.drop 20 = o) ∧
    (∃ i, createInitializeAccountInstruction t m ow = some i ∧ i.data.length = 1) ∧
    (∃ i, createMintToInstruction mint dest auth amount = some i ∧ i.data.length = 9 ∧
       i.data.take 1 = [TOKEN_INSTRUCTION_MINT_TO] ∧ i.data.drop 1 = natToLE 8 amount.toNat) ∧
    (∃ i, createTransferInstruction srcAcct dest ow amount = some i ∧ i.data.length = 9 ∧
       i.data.take 1 = [TOKEN_INSTRUCTION_TRANSFER] ∧ i.data.drop 1 = natToLE 8 amount.toNat) ∧
    (∃ i, createInitializeMintInstruction mm decimals ma none = some i ∧ i.data.length = 35) ∧
    (∃ i, createInitializeMintInstruction mm decimals ma (some fa) = some i ∧
       i.data.length = 67) := by
  refine ⟨⟨_, createAccountInstruction_eq f n lamports space o hl0 hl1 hs0 hs1 ho,
      ?_, ?_, ?_, ?_, ?_⟩,
    ⟨_, createInitializeAccountInstruction_eq t m ow, by simp⟩,
    ⟨_, createMintToInstruction_eq mint dest auth amount ha0 ha1,
      by simp [natToLE_length], by simp, by simp⟩,
    ⟨_, createTransferInstruction_eq srcAcct dest ow amount ha0 ha1,
      by simp [natToLE_length], by simp, by simp⟩,
    ⟨_, createInitializeMintInstruction_none_eq mm decimals ma hd hma, by simp [hma]⟩,
    ⟨_, createInitializeMintInstruction_some_eq mm decimals ma fa hd hma hfa,
      by simp [hma, hfa]⟩⟩
  · simp [natToLE_length, ho]
  · show (natToLE 4 0 ++ natToLE 8 lamports.toNat ++ natToLE 8 space.toNat ++ o).take 4 =
      natToLE 4 0
    rw [List.append_assoc, List.append_assoc]
    exact List.take_left' (natToLE_length 4 0)
  · show ((natToLE 4 0 ++ natToLE 8 lamports.toNat ++ natToLE 8 space.toNat ++ o).drop 4).take 8 =
      natToLE 8 lamports.toNat
    rw [List.append_assoc, List.append_assoc]
    rw [List.drop_left' (natToLE_length 4 0)]
    exact List.take_left' (natToLE_length 8 lamports.toNat)
  · show ((natToLE 4 0 ++ natToLE 8 lamports.toNat ++ natToLE 8 space.toNat ++ o).drop 12).take 8 =
      natToLE 8 space.toNat
    rw [List.append_assoc (natToLE 4 0 ++ natToLE 8 lamports.toNat)]
    rw [List.drop_left' (by simp [natToLE_length])]
    exact List.take_left' (natToLE_length 8 space.toNat)
  · show (natToLE 4 0 ++ natToLE 8 lamports.toNat ++ natToLE 8 space.toNat ++ o).drop 20 = o
    exact List.drop_left' (by simp [natToLE_length])

end SplToken
namespace SplToken

/-- C2: for every operation kind the ordered account-reference list of the
constructed descriptor is the schema-fixed template with exactly the stated
signer/writable flags, for every choice of identity arguments. -/
theorem account_templates_schema_fixed
    (f n o t m ow mint dest auth srcAcct mm ma fa : Pubkey)
    (lamports space amount : Int) (decimals : Nat)
    (hl0 : 0 ≤ lamports) (hl1 : lamports < 2 ^ 64)
    (hs0 : 0 ≤ space) (hs1 : space < 2 ^ 64) (ho : o.length = 32)
    (ha0 : 0 ≤ amount) (ha1 : amount < 2 ^ 64)
    (hd : decimals ≤ 255) (hma : ma.length = 32) (hfa : fa.length = 32) :
    (∃ i, createAccountInstruction f n lamports space o = some i ∧
       i.keys = [⟨f, true, true⟩, ⟨n, true, true⟩]) ∧
    (∃ i, createInitializeMintInstruction mm decimals ma none = some i ∧
       i.keys = [⟨mm, false, true⟩, ⟨SYSVAR_RENT_PUBKEY, false, false⟩]) ∧
    (∃ i, createInitializeMintInstruction mm decimals ma (some fa) = some i ∧
       i.keys = [⟨mm, false, true⟩, ⟨SYSVAR_RENT_PUBKEY, false, false⟩]) ∧
    (∃ i, createInitializeAccountInstruction t m ow = some i ∧
       i.keys = [⟨t, false, true⟩, ⟨m, false, false⟩, ⟨ow, false, false⟩,
                 ⟨SYSVAR_RENT_PUBKEY, false, false⟩]) ∧
    (∃ i, createMintToInstruction mint dest auth amount = some i ∧
       i.keys = [⟨mint, false, true⟩, ⟨dest, false, true⟩, ⟨auth, true, false⟩]) ∧
    (∃ i, createTransferInstruction srcAcct dest ow amount = some i ∧
       i.keys = [⟨srcAcct, false, true⟩, ⟨dest, false, true⟩, ⟨ow, true, false⟩]) :=
  ⟨⟨_, createAccountInstruction_eq f n lamports space o hl0 hl1 hs0 hs1 ho, rfl⟩,
   ⟨_, createInitializeMintInstruction_none_eq mm decimals ma hd hma, rfl⟩,
   ⟨_, createInitializeMintInstruction_some_eq mm decimals ma fa hd hma hfa, rfl⟩,
   ⟨_, createInitializeAccountInstruction_eq t m ow, rfl⟩,
   ⟨_, createMintToInstruction_eq mint dest auth amount ha0 ha1, rfl⟩,
   ⟨_, createTransferInstruction_eq srcAcct dest ow amount ha0 ha1, rfl⟩⟩

/-- C3: with the freeze authority present the InitializeMint payload is
exactly 32 bytes longer than with it absent; the discriminant byte at offset
34 is 1 vs 0 and precedes the optional 32-byte field; and the payload buffer
has the length chosen at allocation time — every write primitive preserves
the buffer's length, so the buffer is never resized. -/
theorem initialize_mint_optional_freeze (mm ma fa : Pubkey) (decimals : Nat)
    (hd : decimals ≤ 255) (hma : ma.length = 32) (hfa : fa.length = 32) :
    ∃ iAbs iPres,
      createInitializeMintInstruction mm decimals ma none = some iAbs ∧
      createInitializeMintInstruction mm decimals ma (some fa) = some iPres ∧
      iPres.data.length = iAbs.data.length + 32 ∧
      (iAbs.data.drop 34).take 1 = [0] ∧
      (iPres.data.drop 34).take 1 = [1] ∧
      iPres.data.drop 35 = fa ∧
      iAbs.data.length = (bufferAlloc (1 + 1 + 32 + 1)).length ∧
      iPres.data.length = (bufferAlloc (1 + 1 + 32 + 1 + 32)).length ∧
      (∀ buf v off buf', writeUInt8 buf v off = some buf' → buf'.length = buf.length) ∧
      (∀ buf (v : Int) off buf',
        writeBigUInt64LE buf v off = some buf' → buf'.length = buf.length) ∧
      (∀ src target ts, (bufferCopy src target ts).length = target.length) := by
  refine ⟨_, _, createInitializeMintInstruction_none_eq mm decimals ma hd hma,
    createInitializeMintInstruction_some_eq mm decimals ma fa hd hma hfa,
    by simp [hma, hfa], ?_, ?_, ?_, by simp [hma, bufferAlloc],
    by simp [hma, hfa, bufferAlloc],
    fun buf v off buf' h => writeUInt8_length buf v off buf' h,
    fun buf v off buf' h => writeBigUInt64LE_length buf v off buf' h,
    fun src target ts => bufferCopy_length src target ts⟩
  · show (((TOKEN_INSTRUCTION_INITIALIZE_MINT :: decimals :: ma) ++ [0]).drop 34).take 1 = [0]
    rw [List.drop_left' (by simp [hma])]
    rfl
  · show ((((TOKEN_INSTRUCTION_INITIALIZE_MINT :: decimals :: ma) ++ [1]) ++ fa).drop 34).take 1 =
      [1]
    rw [List.append_assoc]
    rw [List.drop_left' (by simp [hma])]
    simp
  · show (((TOKEN_INSTRUCTION_INITIALIZE_MINT :: decimals :: ma) ++ [1]) ++ fa).drop 35 = fa
    exact List.drop_left' (by simp [hma])

/-- C4: for MintTo and Transfer the amount occupies exactly bytes 1–8 of the
payload in little-endian order; amounts 0 and 2^64 − 1 succeed and round-trip
to the supplied value; a negative amount or an amount ≥ 2^64 fails (Node's
`writeBigUInt64LE` throws) rather than wrapping or truncating. -/
theorem amount_domain_and_layout (mint dest auth srcAcct ow : Pubkey) (amount : Int)
    (h0 : 0 ≤ amount) (h1 : amount < 2 ^ 64) :
    (∃ i, createMintToInstruction mint dest auth amount = some i ∧ i.data.length = 9 ∧
       (i.data.drop 1).take 8 = natToLE 8 amount.toNat ∧
       (leToNat ((i.data.drop 1).take 8) : Int) = amount) ∧
    (∃ i, createTransferInstruction srcAcct dest ow amount = some i ∧ i.data.length = 9 ∧
       (i.data.drop 1).take 8 = natToLE 8 amount.toNat ∧
       (leToNat ((i.data.drop 1).take 8) : Int) = amount) ∧
    (∃ i, createMintToInstruction mint dest auth 0 = some i) ∧
    (∃ i, createMintToInstruction mint dest auth (2 ^ 64 - 1) = some i) ∧
    (∃ i, createTransferInstruction srcAcct dest ow 0 = some i) ∧
    (∃ i, createTransferInstruction srcAcct dest ow (2 ^ 64 - 1) = some i) ∧
    createMintToInstruction mint dest auth (-1) = none ∧
    createMintToInstruction mint dest auth (2 ^ 64) = none ∧
    createTransferInstruction srcAcct dest ow (-1) = none ∧
    createTransferInstruction srcAcct dest ow (2 ^ 64) = none := by
  have hto : amount.toNat < 2 ^ 64 := by omega
  have hround : (leToNat (natToLE 8 amount.toNat) : Int) = amount := by
    rw [leToNat_natToLE]
    rw [show (256 : Nat) ^ 8 = 2 ^ 64 from by norm_num]
    rw [Nat.mod_eq_of_lt hto]
    exact Int.toNat_of_nonneg h0
  have hfail : ∀ v : Int, ¬(0 ≤ v ∧ v < 2 ^ 64) →
      ∀ p q a : Pubkey, createMintToInstruction p q a v = none ∧
        createTransferInstruction p q a v = none := by
    intro v hv p q a
    constructor
    · simp only [createMintToInstruction.eq_def]
      rw [show writeUInt8 (bufferAlloc (1 + 8)) TOKEN_INSTRUCTION_MINT_TO 0 =
        some [TOKEN_INSTRUCTION_MINT_TO, 0, 0, 0, 0, 0, 0, 0, 0] from by decide]
      simp only [Option.some_bind]
      rw [writeBigUInt64LE, if_neg (fun h => hv ⟨h.1, h.2.1⟩)]
      rfl
    · simp only [createTransferInstruction.eq_def]
      rw [show writeUInt8 (bufferAlloc (1 + 8)) TOKEN_INSTRUCTION_TRANSFER 0 =
        some [TOKEN_INSTRUCTION_TRANSFER, 0, 0, 0, 0, 0, 0, 0, 0] from by decide]
      simp only [Option.some_bind]
      rw [writeBigUInt64LE, if_neg (fun h => hv ⟨h.1, h.2.1⟩)]
      rfl
  refine ⟨⟨_, createMintToInstruction_eq mint dest auth amount h0 h1, by simp [natToLE_length],
      ?_, ?_⟩,
    ⟨_, createTransferInstruction_eq srcAcct dest ow amount h0 h1, by simp [natToLE_length],
      ?_, ?_⟩,
    ⟨_, createMintToInstruction_eq mint dest auth 0 (by norm_num) (by norm_num)⟩,
    ⟨_, createMintToInstruction_eq mint dest auth (2 ^ 64 - 1) (by norm_num) (by norm_num)⟩,
    ⟨_, createTransferInstruction_eq srcAcct dest ow 0 (by norm_num) (by norm_num)⟩,
    ⟨_, createTransferInstruction_eq srcAcct dest ow (2 ^ 64 - 1) (by norm_num) (by norm_num)⟩,
    (hfail (-1) (by norm_num) mint dest auth).1,
    (hfail (2 ^ 64) (by norm_num) mint dest auth).1,
    (hfail (-1) (by norm_num) srcAcct dest ow).2,
    (hfail (2 ^ 64) (by norm_num) srcAcct dest ow).2⟩
  · show ((TOKEN_INSTRUCTION_MINT_TO :: natToLE 8 amount.toNat).drop 1).take 8 =
      natToLE 8 amount.toNat
    simp [List.take_of_length_le, natToLE_length]
  · show (leToNat (((TOKEN_INSTRUCTION_MINT_TO :: natToLE 8 amount.toNat).drop 1).take 8) : Int) =
      amount
    rw [show ((TOKEN_INSTRUCTION_MINT_TO :: natToLE 8 amount.toNat).drop 1).take 8 =
      natToLE 8 amount.toNat from by simp [List.take_of_length_le, natToLE_length]]
    exact hround
  · show ((TOKEN_INSTRUCTION_TRANSFER :: natToLE 8 amount.toNat).drop 1).take 8 =
      natToLE 8 amount.toNat
    simp [List.take_of_length_le, natToLE_length]
  · show (leToNat (((TOKEN_INSTRUCTION_TRANSFER :: natToLE 8 amount.toNat).drop 1).take 8) : Int) =
      amount
    rw [show ((TOKEN_INSTRUCTION_TRANSFER :: natToLE 8 amount.toNat).drop 1).take 8 =
      natToLE 8 amount.toNat from by simp [List.take_of_length_le, natToLE_length]]
    exact hround

end SplToken
namespace SplToken

/-- C5: the required-signer set of a two-instruction batch of
AccountAllocation(payer, new-account) followed by InitializeMint is exactly
the set of identities {payer, new-account}: AccountAllocation marks both of
its accounts as signers and InitializeMint marks none. -/
theorem batch_required_signers (payer newAcct owner mintAuth : Pubkey)
    (lamports space : Int) (decimals : Nat)
    (hl0 : 0 ≤ lamports) (hl1 : lamports < 2 ^ 64)
    (hs0 : 0 ≤ space) (hs1 : space < 2 ^ 64) (ho : owner.length = 32)
    (hd : decimals ≤ 255) (hma : mintAuth.length = 32) :
    ∀ i1 i2, createAccountInstruction payer newAcct lamports space owner = some i1 →
      createInitializeMintInstruction newAcct decimals mintAuth none = some i2 →
      ∀ x, x ∈ requiredSigners [i1, i2] ↔ (x = payer ∨ x = newAcct) := by
  intro i1 i2 h1 h2 x
  rw [createAccountInstruction_eq payer newAcct lamports space owner hl0 hl1 hs0 hs1 ho] at h1
  rw [createInitializeMintInstruction_none_eq newAcct decimals mintAuth hd hma] at h2
  cases h1
  cases h2
  simp [requiredSigners, List.mem_dedup]

/-- C6: AccountAllocation always targets the system (ledger-account-
lifecycle) program while the four token instructions always target the token
program, and the two identity constants are distinct. -/
theorem program_identities_distinct
    (f n o t m ow mint dest auth srcAcct mm ma fa : Pubkey)
    (lamports space amount : Int) (decimals : Nat)
    (hl0 : 0 ≤ lamports) (hl1 : lamports < 2 ^ 64)
    (hs0 : 0 ≤ space) (hs1 : space < 2 ^ 64) (ho : o.length = 32)
    (ha0 : 0 ≤ amount) (ha1 : amount < 2 ^ 64)
    (hd : decimals ≤ 255) (hma : ma.length = 32) (hfa : fa.length = 32) :
    SYSTEM_PROGRAM_ID ≠ TOKEN_PROGRAM_ID ∧
    (∃ i, createAccountInstruction f n lamports space o = some i ∧
       i.programId = SYSTEM_PROGRAM_ID) ∧
    (∃ i, createInitializeMintInstruction mm decimals ma none = some i ∧
       i.programId = TOKEN_PROGRAM_ID) ∧
    (∃ i, createInitializeMintInstruction mm decimals ma (some fa) = some i ∧
       i.programId = TOKEN_PROGRAM_ID) ∧
    (∃ i, createInitializeAccountInstruction t m ow = some i ∧
       i.programId = TOKEN_PROGRAM_ID) ∧
    (∃ i, createMintToInstruction mint dest auth amount = some i ∧
       i.programId = TOKEN_PROGRAM_ID) ∧
    (∃ i, createTransferInstruction srcAcct dest ow amount = some i ∧
       i.programId = TOKEN_PROGRAM_ID) :=
  ⟨by decide,
   ⟨_, createAccountInstruction_eq f n lamports space o hl0 hl1 hs0 hs1 ho, rfl⟩,
   ⟨_, createInitializeMintInstruction_none_eq mm decimals ma hd hma, rfl⟩,
   ⟨_, createInitializeMintInstruction_some_eq mm decimals ma fa hd hma hfa, rfl⟩,
   ⟨_, createInitializeAccountInstruction_eq t m ow, rfl⟩,
   ⟨_, createMintToInstruction_eq mint dest auth amount ha0 ha1, rfl⟩,
   ⟨_, createTransferInstruction_eq srcAcct dest ow amount ha0 ha1, rfl⟩⟩

/-- C7: finalizing a batch with zero instructions fails, finalizing without
a fee payer or freshness token fails, and appending to a finalized batch
fails with an invalid-state error; each failure returns only the error, so
the batch value is left unchanged. -/
theorem batch_state_violations (b : Batch) (i : TransactionInstruction) :
    (b.finalized = false → b.instructions = [] →
       b.finalize = Except.error BatchError.emptyInstructions) ∧
    (b.finalized = false → b.instructions ≠ [] → b.feePayer = none →
       b.finalize = Except.error BatchError.missingFeePayer) ∧
    (b.finalized = false → b.instructions ≠ [] → b.feePayer ≠ none →
       b.freshnessToken = none →
       b.finalize = Except.error BatchError.missingFreshnessToken) ∧
    (b.finalized = true → b.append i = Except.error BatchError.invalidState) := by
  refine ⟨?_, ?_, ?_, ?_⟩
  · intro hf he
    rw [Batch.finalize, if_neg (by simp [hf]), if_pos (by simp [he])]
  · intro hf he hp
    rw [Batch.finalize, if_neg (by simp [hf]), if_neg (by simp [he]), hp]
  · intro hf he hp ht
    rw [Batch.finalize, if_neg (by simp [hf]), if_neg (by simp [he])]
    cases hfp : b.feePayer with
    | none => exact absurd hfp hp
    | some p => rw [ht]
  · intro hf
    rw [Batch.append, if_pos hf]

/-- C8: for every decimals value 0–255 the InitializeMint encoding succeeds
and writes exactly that byte at payload offset 1, with or without a freeze
authority; the encoder applies no further validation of decimals. -/
theorem decimals_any_byte_accepted (mm ma fa : Pubkey) (decimals : Nat)
    (hd : decimals ≤ 255) (hma : ma.length = 32) (hfa : fa.length = 32) :
    (∃ i, createInitializeMintInstruction mm decimals ma none = some i ∧
       (i.data.drop 1).take 1 = [decimals]) ∧
    (∃ i, createInitializeMintInstruction mm decimals ma (some fa) = some i ∧
       (i.data.drop 1).take 1 = [decimals]) :=
  ⟨⟨_, createInitializeMintInstruction_none_eq mm decimals ma hd hma, by simp⟩,
   ⟨_, createInitializeMintInstruction_some_eq mm decimals ma fa hd hma hfa, by simp⟩⟩

/-- C9: every constructor is a pure function of its arguments: two calls
with equal arguments yield descriptors agreeing componentwise (target
identity, account list, payload bytes); the embedding is state-free, as the
source constructors read only their parameters and module constants. -/
theorem constructors_deterministic
    (f n o t m ow mint dest auth srcAcct mm ma : Pubkey) (fa : Option Pubkey)
    (lamports space amount : Int) (decimals : Nat) :
    (∀ i i', createAccountInstruction f n lamports space o = some i →
       createAccountInstruction f n lamports space o = some i' →
       i.programId = i'.programId ∧ i.keys = i'.keys ∧ i.data = i'.data) ∧
    (∀ i i', createInitializeMintInstruction mm decimals ma fa = some i →
       createInitializeMintInstruction mm decimals ma fa = some i' →
       i.programId = i'.programId ∧ i.keys = i'.keys ∧ i.data = i'.data) ∧
    (∀ i i', createInitializeAccountInstruction t m ow = some i →
       createInitializeAccountInstruction t m ow = some i' →
       i.programId = i'.programId ∧ i.keys = i'.keys ∧ i.data = i'.data) ∧
    (∀ i i', createMintToInstruction mint dest auth amount = some i →
       createMintToInstruction mint dest auth amount = some i' →
       i.programId = i'.programId ∧ i.keys = i'.keys ∧ i.data = i'.data) ∧
    (∀ i i', createTransferInstruction srcAcct dest ow amount = some i →
       createTransferInstruction srcAcct dest ow amount = some i' →
       i.programId = i'.programId ∧ i.keys = i'.keys ∧ i.data = i'.data) := by
  refine ⟨?_, ?_, ?_, ?_, ?_⟩ <;>
    (intro i i' h h'
     rw [h] at h'
     cases h'
     exact ⟨rfl, rfl, rfl⟩)

/-- C10: the concrete opcode tags are 0 (4-byte LE) for AccountAllocation,
and single bytes 0 for InitializeMint, 1 for InitializeAccount, 7 for
MintTo, 3 for Transfer; MintTo and Transfer payloads for the same amount
differ only in that first byte. -/
theorem opcode_tag_values
    (f n o t m ow mint dest auth srcAcct mm ma : Pubkey)
    (lamports space amount : Int) (decimals : Nat)
    (hl0 : 0 ≤ lamports) (hl1 : lamports < 2 ^ 64)
    (hs0 : 0 ≤ space) (hs1 : space < 2 ^ 64) (ho : o.length = 32)
    (ha0 : 0 ≤ amount) (ha1 : amount < 2 ^ 64)
    (hd : decimals ≤ 255) (hma : ma.length = 32) :
    TOKEN_INSTRUCTION_INITIALIZE_MINT = 0 ∧
    TOKEN_INSTRUCTION_INITIALIZE_ACCOUNT = 1 ∧
    TOKEN_INSTRUCTION_MINT_TO = 7 ∧
    TOKEN_INSTRUCTION_TRANSFER = 3 ∧
    (∃ i, createAccountInstruction f n lamports space o = some i ∧
       i.data.take 4 = [0, 0, 0, 0]) ∧
    (∃ i, createInitializeMintInstruction mm decimals ma none = some i ∧
       i.data.take 1 = [0]) ∧
    (∃ i, createInitializeAccountInstruction t m ow = some i ∧ i.data = [1]) ∧
    (∃ imt itr, createMintToInstruction mint dest auth amount = some imt ∧
       createTransferInstruction srcAcct dest ow amount = some itr ∧
       imt.data.take 1 = [7] ∧ itr.data.take 1 = [3] ∧
       imt.data.drop 1 = itr.data.drop 1 ∧ imt.data.length = itr.data.length) := by
  refine ⟨rfl, rfl, rfl, rfl,
    ⟨_, createAccountInstruction_eq f n lamports space o hl0 hl1 hs0 hs1 ho, ?_⟩,
    ⟨_, createInitializeMintInstruction_none_eq mm decimals ma hd hma,
      by simp [TOKEN_INSTRUCTION_INITIALIZE_MINT]⟩,
    ⟨_, createInitializeAccountInstruction_eq t m ow,
      by simp [TOKEN_INSTRUCTION_INITIALIZE_ACCOUNT]⟩,
    ⟨_, _, createMintToInstruction_eq mint dest auth amount ha0 ha1,
      createTransferInstruction_eq srcAcct dest ow amount ha0 ha1,
      by simp [TOKEN_INSTRUCTION_MINT_TO], by simp [TOKEN_INSTRUCTION_TRANSFER],
      by simp, by simp [natToLE_length]⟩⟩
  · show (natToLE 4 0 ++ natToLE 8 lamports.toNat ++ natToLE 8 space.toNat ++ o).take 4 =
      [0, 0, 0, 0]
    rw [List.append_assoc, List.append_assoc]
    rw [List.take_left' (natToLE_length 4 0)]
    decide

end SplToken
namespace SplToken

/-- Witness for C1 at concrete inputs. -/
theorem payload_lengths_match_schema_witness :
    (∃ i, createAccountInstruction pkOnes pkTwos 5 82 pkThrees = some i ∧
       i.data.length = 52 ∧ i.data.take 4 = natToLE 4 0 ∧
       (i.data.drop 4).take 8 = natToLE 8 (5 : Int).toNat ∧
       (i.data.drop 12).take 8 = natToLE 8 (82 : Int).toNat ∧ i.data.drop 20 = pkThrees) ∧
    (∃ i, createInitializeAccountInstruction pkOnes pkTwos pkThrees = some i ∧
       i.data.length = 1) ∧
    (∃ i, createMintToInstruction pkOnes pkTwos pkThrees 7 = some i ∧ i.data.length = 9 ∧
       i.data.take 1 = [TOKEN_INSTRUCTION_MINT_TO] ∧
       i.data.drop 1 = natToLE 8 (7 : Int).toNat) ∧
    (∃ i, createTransferInstruction pkFours pkTwos pkThrees 7 = some i ∧ i.data.length = 9 ∧
       i.data.take 1 = [TOKEN_INSTRUCTION_TRANSFER] ∧
       i.data.drop 1 = natToLE 8 (7 : Int).toNat) ∧
    (∃ i, createInitializeMintInstruction pkOnes 9 pkTwos none = some i ∧
       i.data.length = 35) ∧
    (∃ i, createInitializeMintInstruction pkOnes 9 pkTwos (some pkFives) = some i ∧
       i.data.length = 67) :=
  payload_lengths_match_schema pkOnes pkTwos pkThrees pkOnes pkTwos pkThrees pkOnes pkTwos
    pkThrees pkFours pkOnes pkTwos pkFives 5 82 7 9 (by decide) (by decide) (by decide)
    (by decide) (by decide) (by decide) (by decide) (by decide) (by decide) (by decide)

/-- Witness for C2 at concrete inputs. -/
theorem account_templates_schema_fixed_witness :
    (∃ i, createAccountInstruction pkOnes pkTwos 5 82 pkThrees = some i ∧
       i.keys = [⟨pkOnes, true, true⟩, ⟨pkTwos, true, true⟩]) ∧
    (∃ i, createInitializeMintInstruction pkOnes 9 pkTwos none = some i ∧
       i.keys = [⟨pkOnes, false, true⟩, ⟨SYSVAR_RENT_PUBKEY, false, false⟩]) ∧
    (∃ i, createInitializeMintInstruction pkOnes 9 pkTwos (some pkFives) = some i ∧
       i.keys = [⟨pkOnes, false, true⟩, ⟨SYSVAR_RENT_PUBKEY, false, false⟩]) ∧
    (∃ i, createInitializeAccountInstruction pkOnes pkTwos pkThrees = some i ∧
       i.keys = [⟨pkOnes, false, true⟩, ⟨pkTwos, false, false⟩, ⟨pkThrees, false, false⟩,
                 ⟨SYSVAR_RENT_PUBKEY, false, false⟩]) ∧
    (∃ i, createMintToInstruction pkOnes pkTwos pkThrees 7 = some i ∧
       i.keys = [⟨pkOnes, false, true⟩, ⟨pkTwos, false, true⟩, ⟨pkThrees, true, false⟩]) ∧
    (∃ i, createTransferInstruction pkFours pkTwos pkThrees 7 = some i ∧
       i.keys = [⟨pkFours, false, true⟩, ⟨pkTwos, false, true⟩, ⟨pkThrees, true, false⟩]) :=
  account_templates_schema_fixed pkOnes pkTwos pkThrees pkOnes pkTwos pkThrees pkOnes pkTwos
    pkThrees pkFours pkOnes pkTwos pkFives 5 82 7 9 (by decide) (by decide) (by decide)
    (by decide) (by decide) (by decide) (by decide) (by decide) (by decide) (by decide)

/-- Witness for C3 at concrete inputs. -/
theorem initialize_mint_optional_freeze_witness :
    ∃ iAbs iPres,
      createInitializeMintInstruction pkOnes 9 pkTwos none = some iAbs ∧
      createInitializeMintInstruction pkOnes 9 pkTwos (some pkThrees) = some iPres ∧
      iPres.data.length = iAbs.data.length + 32 ∧
      (iAbs.data.drop 34).take 1 = [0] ∧
      (iPres.data.drop 34).take 1 = [1] ∧
      iPres.data.drop 35 = pkThrees ∧
      iAbs.data.length = (bufferAlloc (1 + 1 + 32 + 1)).length ∧
      iPres.data.length = (bufferAlloc (1 + 1 + 32 + 1 + 32)).length ∧
      (∀ buf v off buf', writeUInt8 buf v off = some buf' → buf'.length = buf.length) ∧
      (∀ buf (v : Int) off buf',
        writeBigUInt64LE buf v off = some buf' → buf'.length = buf.length) ∧
      (∀ src target ts, (bufferCopy src target ts).length = target.length) :=
  initialize_mint_optional_freeze pkOnes pkTwos pkThrees 9 (by decide) (by decide) (by decide)

/-- Witness for C4 at concrete inputs. -/
theorem amount_domain_and_layout_witness :
    (∃ i, createMintToInstruction pkOnes pkTwos pkThrees 7 = some i ∧ i.data.length = 9 ∧
       (i.data.drop 1).take 8 = natToLE 8 (7 : Int).toNat ∧
       (leToNat ((i.data.drop 1).take 8) : Int) = 7) ∧
    (∃ i, createTransferInstruction pkFours pkTwos pkFives 7 = some i ∧ i.data.length = 9 ∧
       (i.data.drop 1).take 8 = natToLE 8 (7 : Int).toNat ∧
       (leToNat ((i.data.drop 1).take 8) : Int) = 7) ∧
    (∃ i, createMintToInstruction pkOnes pkTwos pkThrees 0 = some i) ∧
    (∃ i, createMintToInstruction pkOnes pkTwos pkThrees (2 ^ 64 - 1) = some i) ∧
    (∃ i, createTransferInstruction pkFours pkTwos pkFives 0 = some i) ∧
    (∃ i, createTransferInstruction pkFours pkTwos pkFives (2 ^ 64 - 1) = some i) ∧
    createMintToInstruction pkOnes pkTwos pkThrees (-1) = none ∧
    createMintToInstruction pkOnes pkTwos pkThrees (2 ^ 64) = none ∧
    createTransferInstruction pkFours pkTwos pkFives (-1) = none ∧
    createTransferInstruction pkFours pkTwos pkFives (2 ^ 64) = none :=
  amount_domain_and_layout pkOnes pkTwos pkThrees pkFours pkFives 7 (by decide) (by decide)

/-- Witness for C5 at concrete inputs: payer `pkOnes`, new account `pkTwos`;
`pkFives` signs nothing. -/
theorem batch_required_signers_witness :
    (pkOnes ∈ requiredSigners [wAcctIx, wInitMintIx] ↔ (pkOnes = pkOnes ∨ pkOnes = pkTwos)) ∧
    (pkTwos ∈ requiredSigners [wAcctIx, wInitMintIx] ↔ (pkTwos = pkOnes ∨ pkTwos = pkTwos)) ∧
    (pkFives ∈ requiredSigners [wAcctIx, wInitMintIx] ↔ (pkFives = pkOnes ∨ pkFives = pkTwos)) :=
  ⟨batch_required_signers pkOnes pkTwos pkThrees pkFours 5 82 9 (by decide) (by decide)
     (by decide) (by decide) (by decide) (by decide) (by decide) wAcctIx wInitMintIx
     (by decide) (by decide) pkOnes,
   batch_required_signers pkOnes pkTwos pkThrees pkFours 5 82 9 (by decide) (by decide)
     (by decide) (by decide) (by decide) (by decide) (by decide) wAcctIx wInitMintIx
     (by decide) (by decide) pkTwos,
   batch_required_signers pkOnes pkTwos pkThrees pkFours 5 82 9 (by decide) (by decide)
     (by decide) (by decide) (by decide) (by decide) (by decide) wAcctIx wInitMintIx
     (by decide) (by decide) pkFives⟩

/-- Witness for C6 at concrete inputs. -/
theorem program_identities_distinct_witness :
    SYSTEM_PROGRAM_ID ≠ TOKEN_PROGRAM_ID ∧
    (∃ i, createAccountInstruction pkOnes pkTwos 5 82 pkThrees = some i ∧
       i.programId = SYSTEM_PROGRAM_ID) ∧
    (∃ i, createInitializeMintInstruction pkOnes 9 pkTwos none = some i ∧
       i.programId = TOKEN_PROGRAM_ID) ∧
    (∃ i, createInitializeMintInstruction pkOnes 9 pkTwos (some pkFives) = some i ∧
       i.programId = TOKEN_PROGRAM_ID) ∧
    (∃ i, createInitializeAccountInstruction pkOnes pkTwos pkThrees = some i ∧
       i.programId = TOKEN_PROGRAM_ID) ∧
    (∃ i, createMintToInstruction pkOnes pkTwos pkThrees 7 = some i ∧
       i.programId = TOKEN_PROGRAM_ID) ∧
    (∃ i, createTransferInstruction pkFours pkTwos pkThrees 7 = some i ∧
       i.programId = TOKEN_PROGRAM_ID) :=
  program_identities_distinct pkOnes pkTwos pkThrees pkOnes pkTwos pkThrees pkOnes pkTwos
    pkThrees pkFours pkOnes pkTwos pkFives 5 82 7 9 (by decide) (by decide) (by decide)
    (by decide) (by decide) (by decide) (by decide) (by decide) (by decide) (by decide)

/-- Witness for C7 at concrete batches. -/
theorem batch_state_violations_witness :
    wBatchEmpty.finalize = Except.error BatchError.emptyInstructions ∧
    wBatchNoPayer.finalize = Except.error BatchError.missingFeePayer ∧
    wBatchNoToken.finalize = Except.error BatchError.missingFreshnessToken ∧
    wBatchFinal.append wMintToIx = Except.error BatchError.invalidState :=
  ⟨(batch_state_violations wBatchEmpty wMintToIx).1 rfl rfl,
   (batch_state_violations wBatchNoPayer wMintToIx).2.1 rfl (by decide) rfl,
   (batch_state_violations wBatchNoToken wMintToIx).2.2.1 rfl (by decide) (by decide) rfl,
   (batch_state_violations wBatchFinal wMintToIx).2.2.2 rfl⟩

/-- Witness for C8 at the unconventional decimals value 200. -/
theorem decimals_any_byte_accepted_witness :
    (∃ i, createInitializeMintInstruction pkOnes 200 pkTwos none = some i ∧
       (i.data.drop 1).take 1 = [200]) ∧
    (∃ i, createInitializeMintInstruction pkOnes 200 pkTwos (some pkThrees) = some i ∧
       (i.data.drop 1).take 1 = [200]) :=
  decimals_any_byte_accepted pkOnes pkTwos pkThrees 200 (by decide) (by decide) (by decide)

/-- Witness for C9 at concrete inputs and descriptors. -/
theorem constructors_deterministic_witness :
    (wAcctIx.programId = wAcctIx.programId ∧ wAcctIx.keys = wAcctIx.keys ∧
       wAcctIx.data = wAcctIx.data) ∧
    (wInitMint2Ix.programId = wInitMint2Ix.programId ∧ wInitMint2Ix.keys = wInitMint2Ix.keys ∧
       wInitMint2Ix.data = wInitMint2Ix.data) ∧
    (wInitAcctIx.programId = wInitAcctIx.programId ∧ wInitAcctIx.keys = wInitAcctIx.keys ∧
       wInitAcctIx.data = wInitAcctIx.data) ∧
    (wMintToIx.programId = wMintToIx.programId ∧ wMintToIx.keys = wMintToIx.keys ∧
       wMintToIx.data = wMintToIx.data) ∧
    (wTransferIx.programId = wTransferIx.programId ∧ wTransferIx.keys = wTransferIx.keys ∧
       wTransferIx.data = wTransferIx.data) :=
  ⟨(constructors_deterministic pkOnes pkTwos pkThrees pkOnes pkTwos pkThrees pkOnes pkTwos
      pkThrees pkFours pkOnes pkTwos none 5 82 5 9).1 wAcctIx wAcctIx (by decide) (by decide),
   (constructors_deterministic pkOnes pkTwos pkThrees pkOnes pkTwos pkThrees pkOnes pkTwos
      pkThrees pkFours pkOnes pkTwos none 5 82 5 9).2.1 wInitMint2Ix wInitMint2Ix
      (by decide) (by decide),
   (constructors_deterministic pkOnes pkTwos pkThrees pkOnes pkTwos pkThrees pkOnes pkTwos
      pkThrees pkFours pkOnes pkTwos none 5 82 5 9).2.2.1 wInitAcctIx wInitAcctIx
      (by decide) (by decide),
   (constructors_deterministic pkOnes pkTwos pkThrees pkOnes pkTwos pkThrees pkOnes pkTwos
      pkThrees pkFours pkOnes pkTwos none 5 82 5 9).2.2.2.1 wMintToIx wMintToIx
      (by decide) (by decide),
   (constructors_deterministic pkOnes pkTwos pkThrees pkOnes pkTwos pkThrees pkOnes pkTwos
      pkThrees pkFours pkOnes pkTwos none 5 82 5 9).2.2.2.2 wTransferIx wTransferIx
      (by decide) (by decide)⟩

/-- Witness for C10 at concrete inputs. -/
theorem opcode_tag_values_witness :
    TOKEN_INSTRUCTION_INITIALIZE_MINT = 0 ∧
    TOKEN_INSTRUCTION_INITIALIZE_ACCOUNT = 1 ∧
    TOKEN_INSTRUCTION_MINT_TO = 7 ∧
    TOKEN_INSTRUCTION_TRANSFER = 3 ∧
    (∃ i, createAccountInstruction pkOnes pkTwos 5 82 pkThrees = some i ∧
       i.data.take 4 = [0, 0, 0, 0]) ∧
    (∃ i, createInitializeMintInstruction pkOnes 9 pkTwos none = some i ∧
       i.data.take 1 = [0]) ∧
    (∃ i, createInitializeAccountInstruction pkOnes pkTwos pkThrees = some i ∧
       i.data = [1]) ∧
    (∃ imt itr, createMintToInstruction pkOnes pkTwos pkThrees 7 = some imt ∧
       createTransferInstruction pkFours pkTwos pkThrees 7 = some itr ∧
       imt.data.take 1 = [7] ∧ itr.data.take 1 = [3] ∧
       imt.data.drop 1 = itr.data.drop 1 ∧ imt.data.length = itr.data.length) :=
  opcode_tag_values pkOnes pkTwos pkThrees pkOnes pkTwos pkThrees pkOnes pkTwos pkThrees
    pkFours pkOnes pkTwos 5 82 7 9 (by decide) (by decide) (by decide) (by decide)
    (by decide) (by decide) (by decide) (by decide) (by decide)

end SplToken
